import Mathlib

/-!
Verification development for the freeseer RTMP streaming output plugin
(`src/freeseer/plugins/output/rtmp_streaming/__init__.py`).

The Python module is shallowly embedded: the GStreamer pipeline assembly
(`RTMPOutput.get_output_bin`) is modelled as a pure construction of a
`GstBin` value, Python exceptions are modelled with `Except PyErr`, and the
external collaborators (GStreamer element factories, the HTTP/OAuth/JSON
libraries, pickle) are modelled as explicit environments whose behaviour is
passed in as data.
-/

namespace RTMPStreaming

/-- Python exception kinds that the plugin code can raise or catch. -/
inductive PyErr
  | keyError
  | attributeError
  | jsonDecodeError
deriving DecidableEq, Repr

/-- `try: body except KeyError: return fallback` — the only exception kind the
plugin's API helpers catch.  The `except KeyError, simplejson.decoder.JSONDecodeError:`
clause in `get_data` is Python 2 binding syntax: it catches KeyError alone and merely
binds the caught exception to the attribute named after the comma, so a JSON decode
error is not caught by it. -/
def pyTryKeyError {α : Type} (body : Except PyErr α) (fallback : α) : Except PyErr α :=
  match body with
  | .error .keyError => .ok fallback
  | r => r

/-- Python dict subscript `d[k]`: the value at the key, or KeyError. -/
def dict_getitem (d : List (String × String)) (k : String) : Except PyErr String :=
  match d.find? (fun kv => kv.1 == k) with
  | some kv => .ok kv.2
  | none => .error .keyError

/-- Split a character list on a separator (the behaviour of `str.split(sep)`
on each character boundary: `"a&&b"` gives `["a", "", "b"]`). -/
def split_on_char (sep : Char) : List Char → List (List Char)
  | [] => [[]]
  | c :: rest =>
    match split_on_char sep rest with
    | [] => if c = sep then [[], []] else [[c]]
    | h :: t => if c = sep then [] :: h :: t else (c :: h) :: t

/-- Join character lists with a separator (inverse of `split_on_char` on the
tail parts of a pair, used for values containing further `=` characters). -/
def join_with (sep : Char) : List (List Char) → List Char
  | [] => []
  | [p] => p
  | p :: rest => p ++ sep :: join_with sep rest

/-- `urlparse.parse_qs` as used by `oauth.OAuthToken.from_string`
(with `keep_blank_values` false, pairs with an empty value are dropped;
a pair splits on its first `=`). -/
def parse_qs (s : String) : List (String × String) :=
  (split_on_char '&' s.data).filterMap fun pair =>
    match split_on_char '=' pair with
    | k :: v :: rest =>
        let value := join_with '=' (v :: rest)
        if value.isEmpty then none else some (String.mk k, String.mk value)
    | _ => none

/-- `oauth.OAuthToken.from_string`: reads the `oauth_token` and
`oauth_token_secret` keys of the query string; a missing key is a KeyError. -/
def OAuthToken_from_string (s : String) : Except PyErr (String × String) :=
  let params := parse_qs s
  match params.find? (fun kv => kv.1 == "oauth_token") with
  | none => .error .keyError
  | some kt =>
    match params.find? (fun kv => kv.1 == "oauth_token_secret") with
    | none => .error .keyError
    | some ks => .ok (kt.2, ks.2)

/-- Behaviour of the external network / serialization libraries
(httplib, simplejson, pickle): each call site reads the response of the
outside world through this environment.  JSON responses are modelled as the
flat string dictionaries that are all the plugin ever reads from them. -/
structure NetEnv where
  /-- body returned by an HTTP GET of the given url
  (`connection.request('GET', …)` + `connection.getresponse().read()`) -/
  http_get : String → String
  /-- body returned by an HTTP POST of the given url with the given post data -/
  http_post : String → List (String × String) → String
  /-- `simplejson.loads` on a response body -/
  json_loads : String → Except PyErr (List (String × String))
  /-- `pickle.loads` of a persistent blob: the four stored strings -/
  pickle_loads : String → Except PyErr (String × String × String × String)
  /-- `pickle.dumps` of the four credential strings -/
  pickle_dumps : String → String → String → String → String

/-- The `config` attribute that `JustinApi.__init__` tries to populate. -/
structure JustinConfigAttr where
  consumer_key : String
  consumer_secret : String
deriving DecidableEq, Repr

/-- State of a `JustinApi` instance.  `__init__` reads `self.config` before any
assignment to that attribute ever happens anywhere in the class, so on every
instance the `config` attribute is undefined (`none`) and reading it raises
AttributeError. -/
structure JustinClient where
  request_token_str : String
  access_token_str : String
  config : Option JustinConfigAttr
deriving DecidableEq, Repr

/-- Attribute read `self.config` on a `JustinApi` instance. -/
def JustinClient.getConfig (c : JustinClient) : Except PyErr JustinConfigAttr :=
  match c.config with
  | some v => .ok v
  | none => .error .attributeError

def JUSTIN_ADDR : String := "api.justin.tv"

def oauth_request_token_url : String := "http://" ++ JUSTIN_ADDR ++ "/oauth/request_token"

def oauth_access_token_url : String := "http://" ++ JUSTIN_ADDR ++ "/oauth/access_token"

def oauth_authorize_url : String := "http://" ++ JUSTIN_ADDR ++ "/oauth/authorize"

def api_url (endpoint : String) : String := "http://" ++ JUSTIN_ADDR ++ "/api/" ++ endpoint

/-- `JustinApi.__init__(consumer_key, consumer_secret, request_token_str, access_token_str)`.
Its first statement, `self.config.consumer_key = consumer_key`, reads the
never-assigned `config` attribute of the fresh instance, so construction fails
before the remaining fields are assigned. -/
def JustinApi_init (consumer_key consumer_secret request_token_str access_token_str :
    String) : Except PyErr JustinClient :=
  let fresh : JustinClient := { request_token_str := "", access_token_str := "", config := none }
  match fresh.getConfig with
  | .error e => .error e
  | .ok cfg =>
      .ok { request_token_str := request_token_str
            access_token_str := access_token_str
            config := some { cfg with consumer_key := consumer_key,
                                      consumer_secret := consumer_secret } }

/-- `JustinApi.open_request`: performs the OAuth request-token fetch, parses the
response into a token, builds the user-authorization url, and constructs the
client object holding the unexchanged request token. -/
def JustinApi_open_request (nenv : NetEnv) (consumer_key consumer_secret : String) :
    Except PyErr (String × JustinClient) :=
  let result := nenv.http_get oauth_request_token_url
  match OAuthToken_from_string result with
  | .error e => .error e
  | .ok token =>
    let url := oauth_authorize_url ++ "?oauth_token=" ++ token.1 ++
               "&oauth_callback=http%3A%2F%2Flocalhost%2F"
    match JustinApi_init consumer_key consumer_secret result "" with
    | .error e => .error e
    | .ok client => .ok (url, client)

/-- `JustinApi.from_string(persistent_obj)`: unpickle the four credential
strings and construct the client from them. -/
def JustinApi_from_string (nenv : NetEnv) (persistent_obj : String) :
    Except PyErr JustinClient :=
  match nenv.pickle_loads persistent_obj with
  | .error e => .error e
  | .ok (ck, cs, rt, acc) => JustinApi_init ck cs rt acc

/-- `JustinApi.to_string`: pickles `self.config.consumer_key`,
`self.config.consumer_secret` and the two token strings. -/
def JustinClient_to_string (nenv : NetEnv) (c : JustinClient) : Except PyErr String :=
  match c.getConfig with
  | .error e => .error e
  | .ok cfg =>
      .ok (nenv.pickle_dumps cfg.consumer_key cfg.consumer_secret
            c.request_token_str c.access_token_str)

/-- `JustinApi.obtain_access_token`.  Inside the `try`, the consumer is built from
`self.config.…` (an AttributeError on every real instance, and not caught by the
`except KeyError` clause), the stored request token is parsed, the access-token
endpoint is fetched, and the result is stored into `self.access_token_str`
before it is itself parsed — so when that final parse raises the caught
KeyError, the malformed token has already been stored.  On full success the
save callback is invoked with the new serialization (an external effect on the
plugin, see `set_justin_api_persistent`). -/
def obtain_access_token (nenv : NetEnv) (c : JustinClient) : Except PyErr JustinClient :=
  match (do
          let _ ← c.getConfig
          let _ ← OAuthToken_from_string c.request_token_str
          pure () : Except PyErr Unit) with
  | .error .keyError => .ok c
  | .error e => .error e
  | .ok _ =>
    let result := nenv.http_get oauth_access_token_url
    let stored : JustinClient := { c with access_token_str := result }
    match OAuthToken_from_string result with
    | .error .keyError => .ok stored
    | .error e => .error e
    | .ok _ => .ok stored

/-- `JustinApi.get_data(endpoint)`: parse the stored access token, build the
signed request from `self.config.…`, fetch and JSON-decode the response; a
KeyError anywhere in that is logged and turned into an empty dict, while every
other failure (including a JSON decode error, which the buggy except clause
does not actually catch) propagates. -/
def get_data (nenv : NetEnv) (c : JustinClient) (endpoint : String) :
    Except PyErr (List (String × String)) :=
  pyTryKeyError
    (do
      let _ ← OAuthToken_from_string c.access_token_str
      let _ ← c.getConfig
      let result := nenv.http_get (api_url endpoint)
      let data ← nenv.json_loads result
      pure data)
    []

/-- `JustinApi.set_data(endpoint, payload)`: like `get_data` but a POST whose
raw response body is returned; a KeyError is logged and turned into `None`. -/
def set_data (nenv : NetEnv) (c : JustinClient) (endpoint : String)
    (payload : List (String × String)) : Except PyErr (Option String) :=
  pyTryKeyError
    (do
      let _ ← OAuthToken_from_string c.access_token_str
      let _ ← c.getConfig
      let result := nenv.http_post (api_url endpoint) payload
      pure (some result))
    none

/-- `JustinApi.set_channel_status(status, description)`: lazily exchange the
access token when none is stored, look up the account identity, and push the
channel update.  Only the helpers' internal KeyError catches soften failures;
this method itself catches nothing, so `data['login']` on an unexpected
response, or any AttributeError from the helpers, propagates to the caller. -/
def set_channel_status (nenv : NetEnv) (c : JustinClient) (status description : String) :
    Except PyErr Unit := do
  let c ← if c.access_token_str = "" then obtain_access_token nenv c else pure c
  let data ← get_data nenv c "account/whoami.json"
  if data.isEmpty then
    return ()
  else
    let login ← dict_getitem data "login"
    let _ ← get_data nenv c ("channel/show/" ++ login ++ ".json")
    let _ ← set_data nenv c "channel/update.json"
              [("title", status), ("status", status), ("description", description)]
    return ()

/-! ## The RTMPOutput plugin -/

/-- Module-level constants of the plugin. -/
def TUNE_VALUES : List String :=
  ["none", "film", "animation", "grain", "stillimage", "psnr", "ssim", "fastdecode",
   "zerolatency"]

def AUDIO_CODEC_VALUES : List String := ["lame", "faac"]

def STREAMING_DESTINATION_VALUES : List String := ["custom", "justin.tv"]

def JUSTIN_URL : String := "rtmp://live-3c.justin.tv/app/"

def STATUS_KEYS : List String := ["artist", "title"]

def DESCRIPTION_KEY : String := "comment"

/-- The `RTMPOutputConfig` record (one string/integer option per declared field). -/
structure RTMPOutputConfig where
  url : String
  audio_quality : Int
  video_bitrate : Int
  video_tune : String
  audio_codec : String
  streaming_destination : String
  streaming_key : String
  consumer_key : String
  consumer_secret : String
  authorization_url : String
  use_justin_api : String
  justin_api_persistent : String
deriving DecidableEq, Repr

/-- The declared option defaults of `RTMPOutputConfig`. -/
def default_config : RTMPOutputConfig :=
  { url := "", audio_quality := 3, video_bitrate := 2400, video_tune := "none",
    audio_codec := "lame", streaming_destination := "custom", streaming_key := "",
    consumer_key := "", consumer_secret := "", authorization_url := "",
    use_justin_api := "no", justin_api_persistent := "" }

/-- The plugin-instance state that `get_output_bin` and the persistence methods
read and write: the configuration record, the `tags`/`justin_api` attributes
(class defaults `None`), and the instance attribute that the buggy
`set_justin_api_persistent` creates on the plugin object. -/
structure RTMPState where
  config : RTMPOutputConfig
  tags : Option (List (String × String))
  justin_api : Option JustinClient
  justin_api_persistent_attr : Option String
deriving DecidableEq, Repr

/-- Behaviour of the GStreamer framework visible to the plugin. -/
structure GstEnv where
  /-- `get_property_names()` of an element made from the given factory name -/
  property_names : String → List String
  /-- `gst.tag_exists` -/
  tag_exists : String → Bool

/-- A GStreamer element as configured by the plugin: its factory, its name in
the bin, and the properties set on it, in order. -/
inductive PropVal
  | str (s : String)
  | int (n : Int)
deriving DecidableEq, Repr

structure Element where
  factory : String
  name : String
  props : List (String × PropVal)
deriving DecidableEq, Repr

structure GhostPad where
  pad_name : String
  target_element : String
  target_pad : String
deriving DecidableEq, Repr

/-- The bin assembled by `get_output_bin`: elements in `bin.add` order, links
between named elements, ghost pads, the argument of the single
`muxer.merge_tags` call when it happened, and the tag merge mode passed to
`muxer.set_tag_merge_mode` (enum value 2 = GST_TAG_MERGE_REPLACE). -/
structure GstBin where
  elements : List Element
  links : List (String × String)
  ghost_pads : List GhostPad
  merged_tags : Option (Option (List (String × String)))
  tag_merge_mode : Option Nat
deriving DecidableEq, Repr

/-- `RTMPOutput.get_talk_status(metadata)`.  A falsy `metadata` (None or the
empty dict) yields the empty string; otherwise the values at `STATUS_KEYS` are
joined with `" - "`, a missing key raising KeyError.  The source spells the key
list `self.STATUS_KEYS`; that attribute resolution goes through the `IOutput`
base class, which is not under src/, and is modelled from the spec as the
module-level artist/title key list. -/
def get_talk_status (metadata : Option (List (String × String))) : Except PyErr String :=
  match metadata with
  | none => .ok ""
  | some m =>
    if m.isEmpty then .ok ""
    else do
      let vals ← STATUS_KEYS.mapM (fun k => dict_getitem m k)
      pure (String.intercalate " - " vals)

/-- `RTMPOutput.get_description(metadata)`: the value at `DESCRIPTION_KEY`
(`self.DESCRIPTION_KEY` in the source, resolved as for `get_talk_status`),
or the empty string for falsy metadata. -/
def get_description (metadata : Option (List (String × String))) : Except PyErr String :=
  match metadata with
  | none => .ok ""
  | some m =>
    if m.isEmpty then .ok ""
    else dict_getitem m DESCRIPTION_KEY

/-- `RTMPOutput.set_metadata(data)`: build a fresh tag list holding, in key
order, each entry whose key `gst.tag_exists` recognizes; unrecognized keys are
skipped (the warning branch is a comment in the source) and no error is ever
raised. -/
def set_metadata (genv : GstEnv) (data : List (String × String)) :
    List (String × String) :=
  data.foldl (fun tags kv => if genv.tag_exists kv.1 then tags ++ [kv] else tags) []

/-- The plugin state after the `if metadata is not None: self.set_metadata(metadata)`
prologue of `get_output_bin`. -/
def after_set_metadata (genv : GstEnv) (st : RTMPState)
    (metadata : Option (List (String × String))) : RTMPState :=
  match metadata with
  | some m => { st with tags := some (set_metadata genv m) }
  | none => st

/-- The bin as wired by `get_output_bin`: flvmux muxer and rtmpsink (location
from the configured url); a four-stage audio chain with ghost pad `audiosink`
on the queue when audio is enabled, the codec taken from the configured
factory, with `quality` set from configuration exactly when the element exposes
that property; a two-stage video chain with ghost pad `videosink` on the queue
when video is enabled, the x264enc bitrate always set and `tune` set only when
the configured preset is not `"none"`; and the muxer linked to the sink. -/
def built_bin (genv : GstEnv) (cfg : RTMPOutputConfig)
    (tags : Option (List (String × String))) (audio video metadata_present : Bool) :
    GstBin :=
  let muxer : Element := { factory := "flvmux", name := "muxer", props := [] }
  let rtmpsink : Element := { factory := "rtmpsink", name := "rtmpsink",
                              props := [("location", PropVal.str cfg.url)] }
  let base : GstBin :=
    { elements := [muxer, rtmpsink]
      links := []
      ghost_pads := []
      merged_tags := if metadata_present then some tags else none
      tag_merge_mode := some 2 }
  let withAudio : GstBin :=
    if audio then
      let audioqueue : Element := { factory := "queue", name := "audioqueue", props := [] }
      let audioconvert : Element :=
        { factory := "audioconvert", name := "audioconvert", props := [] }
      let audiolevel : Element :=
        { factory := "level", name := "audiolevel",
          props := [("interval", PropVal.int 20000000)] }
      let audiocodec : Element :=
        { factory := cfg.audio_codec, name := "audiocodec",
          props :=
            if "quality" ∈ genv.property_names cfg.audio_codec then
              [("quality", PropVal.int cfg.audio_quality)]
            else [] }
      { base with
        elements := base.elements ++ [audioqueue, audioconvert, audiolevel, audiocodec]
        ghost_pads := base.ghost_pads ++
          [{ pad_name := "audiosink", target_element := "audioqueue", target_pad := "sink" }]
        links := base.links ++
          [("audioqueue", "audioconvert"), ("audioconvert", "audiolevel"),
           ("audiolevel", "audiocodec"), ("audiocodec", "muxer")] }
    else base
  let withVideo : GstBin :=
    if video then
      let videoqueue : Element := { factory := "queue", name := "videoqueue", props := [] }
      let videocodec : Element :=
        { factory := "x264enc", name := "videocodec",
          props := ("bitrate", PropVal.int cfg.video_bitrate) ::
            (if cfg.video_tune ≠ "none" then [("tune", PropVal.str cfg.video_tune)]
             else []) }
      { withAudio with
        elements := withAudio.elements ++ [videoqueue, videocodec]
        ghost_pads := withAudio.ghost_pads ++
          [{ pad_name := "videosink", target_element := "videoqueue", target_pad := "sink" }]
        links := withAudio.links ++ [("videoqueue", "videocodec"), ("videocodec", "muxer")] }
    else withAudio
  { withVideo with links := withVideo.links ++ [("muxer", "rtmpsink")] }

/-- The justin.tv status push performed at the end of `get_output_bin`,
guarded only by the two configuration flags (not by `metadata`): the attribute
lookup `self.justin_api.set_channel_status` (AttributeError when `justin_api`
is still `None`), then the two derived strings, then the call itself, which
nothing here catches.  Returns the (status, description) pairs pushed. -/
def justin_push (nenv : NetEnv) (st : RTMPState)
    (metadata : Option (List (String × String))) :
    Except PyErr (List (String × String)) :=
  if st.config.streaming_destination = STREAMING_DESTINATION_VALUES.getD 1 "" ∧
      st.config.use_justin_api = "yes" then
    match st.justin_api with
    | none => .error .attributeError
    | some c => do
        let status ← get_talk_status metadata
        let description ← get_description metadata
        let _ ← set_channel_status nenv c status description
        pure [(status, description)]
  else .ok []

/-- The value produced by a successful `get_output_bin` call: the returned bin,
the plugin state as left behind, and the status pushes that happened. -/
structure BuildResult where
  bin : GstBin
  state : RTMPState
  push_calls : List (String × String)
deriving DecidableEq, Repr

/-- `RTMPOutput.get_output_bin(audio, video, metadata)`: store the filtered
metadata tags, assemble and wire the bin, then perform the optional justin.tv
status push; an exception escaping the push escapes `get_output_bin` itself,
so the bin is returned only when the push did not raise. -/
def get_output_bin (genv : GstEnv) (nenv : NetEnv) (st : RTMPState)
    (audio video : Bool) (metadata : Option (List (String × String))) :
    Except PyErr BuildResult :=
  let st1 := after_set_metadata genv st metadata
  let bin := built_bin genv st1.config st1.tags audio video metadata.isSome
  (justin_push nenv st1 metadata).map
    (fun calls => { bin := bin, state := st1, push_calls := calls })

/-- `RTMPOutput.set_justin_api_persistent(text)`: the save callback handed to
the platform client.  It assigns `self.justin_api_persistent` — an instance
attribute on the plugin object — and then saves the configuration record,
whose own `justin_api_persistent` field it never touched. -/
def set_justin_api_persistent (st : RTMPState) (text : String) : RTMPState :=
  { st with justin_api_persistent_attr := some text }

/-- `RTMPOutput.load_config`: the `super(...).load_config(plugman)` call is
base-class code not under src/, modelled from the spec as having already
populated `st.config` from the persisted record.  When the persisted blob is
non-empty the client is rebuilt with `JustinApi.from_string` and
`set_save_method` immediately serializes it back (`to_string`) through the
save callback. -/
def load_config (nenv : NetEnv) (st : RTMPState) : Except PyErr RTMPState :=
  if st.config.justin_api_persistent = "" then .ok st
  else
    match JustinApi_from_string nenv st.config.justin_api_persistent with
    | .error e => .error e
    | .ok client =>
      match JustinClient_to_string nenv client with
      | .error e => .error e
      | .ok s =>
        .ok (set_justin_api_persistent { st with justin_api := some client } s)

/-! ## Concrete fixtures used to instantiate the theorems -/

/-- A GStreamer environment matching the behaviour the spec describes: of the
two supported audio codecs, `lame` exposes a `quality` property and `faac`
does not, and the common metadata tag names are registered. -/
def genvT : GstEnv :=
  { property_names := fun s => if s = "lame" then ["quality", "bitrate"] else ["bitrate"]
    tag_exists := fun t => t ∈ ["title", "artist", "comment"] }

/-- A network environment whose responses are never reached on the paths the
theorems exercise. -/
def nenvT : NetEnv :=
  { http_get := fun _ => ""
    http_post := fun _ _ => ""
    json_loads := fun _ => .error .jsonDecodeError
    pickle_loads := fun _ => .ok ("k", "s", "r", "")
    pickle_dumps := fun a b c d => String.intercalate "|" [a, b, c, d] }

/-- A network environment whose request-token endpoint answers with a
well-formed OAuth token response. -/
def nenvGood : NetEnv :=
  { nenvT with http_get := fun _ => "oauth_token=a&oauth_token_secret=b" }

/-- The metadata mapping of the spec's worked example. -/
def mTAC : List (String × String) := [("title", "T"), ("artist", "A"), ("comment", "C")]

/-- Configuration streaming to justin.tv with the metadata push enabled. -/
def cfgJ : RTMPOutputConfig :=
  { default_config with streaming_destination := "justin.tv", use_justin_api := "yes" }

/-- A client whose stored access token is non-empty but malformed (fails the
OAuth parse with KeyError). -/
def badTokClient : JustinClient :=
  { request_token_str := "", access_token_str := "garbage", config := none }

/-- A client whose stored access token is well-formed (the expired-token
scenario: the parse succeeds and execution continues). -/
def goodTokClient : JustinClient :=
  { request_token_str := "", access_token_str := "oauth_token=a&oauth_token_secret=b",
    config := none }

/-- Plugin state: justin.tv destination, push enabled, malformed-token client. -/
def stJ : RTMPState :=
  { config := cfgJ, tags := none, justin_api := some badTokClient,
    justin_api_persistent_attr := none }

/-- Plugin state: justin.tv destination, push enabled, well-formed-token client. -/
def stJE : RTMPState := { stJ with justin_api := some goodTokClient }

/-- Plugin state with the default (custom-destination) configuration. -/
def stCustom : RTMPState :=
  { config := default_config, tags := none, justin_api := none,
    justin_api_persistent_attr := none }

/-- Custom-destination state with the video tuning preset set to `film`. -/
def stFilm : RTMPState :=
  { stCustom with config := { default_config with video_tune := "film" } }

/-- Custom-destination state with the `faac` audio codec selected. -/
def stFaac : RTMPState :=
  { stCustom with config := { default_config with audio_codec := "faac" } }

/-! ## Helper lemmas -/

theorem after_set_metadata_config (genv : GstEnv) (st : RTMPState)
    (metadata : Option (List (String × String))) :
    (after_set_metadata genv st metadata).config = st.config := by
  cases metadata <;> rfl

theorem after_set_metadata_justin (genv : GstEnv) (st : RTMPState)
    (metadata : Option (List (String × String))) :
    (after_set_metadata genv st metadata).justin_api = st.justin_api := by
  cases metadata <;> rfl

/-- Whatever the justin.tv push did, a successful `get_output_bin` returns the
bin built by the wiring phase and leaves the state of `after_set_metadata`. -/
theorem get_output_bin_ok {genv : GstEnv} {nenv : NetEnv} {st : RTMPState}
    {audio video : Bool} {metadata : Option (List (String × String))} {r : BuildResult}
    (h : get_output_bin genv nenv st audio video metadata = .ok r) :
    r.bin = built_bin genv (after_set_metadata genv st metadata).config
              (after_set_metadata genv st metadata).tags audio video metadata.isSome ∧
    r.state = after_set_metadata genv st metadata := by
  simp only [get_output_bin] at h
  cases hj : justin_push nenv (after_set_metadata genv st metadata) metadata with
  | error e => rw [hj] at h; exact absurd h (by simp [Except.map])
  | ok calls =>
    rw [hj] at h
    simp only [Except.map, Except.ok.injEq] at h
    exact ⟨by rw [← h], by rw [← h]⟩

theorem set_metadata_eq_filter (genv : GstEnv) (data : List (String × String)) :
    set_metadata genv data = data.filter (fun kv => genv.tag_exists kv.1) := by
  suffices h : ∀ acc : List (String × String),
      data.foldl (fun tags kv => if genv.tag_exists kv.1 then tags ++ [kv] else tags) acc
        = acc ++ data.filter (fun kv => genv.tag_exists kv.1) by
    simpa [set_metadata] using h []
  induction data with
  | nil => intro acc; simp
  | cons hd tl ih =>
    intro acc
    cases hc : genv.tag_exists hd.1 <;>
      simp [List.filter_cons, hc, ih, List.append_assoc]

/-- With a stored access token that is non-empty but fails the OAuth parse with
KeyError, `set_channel_status` returns cleanly: the lazy exchange is skipped,
`get_data` catches the KeyError and yields the empty dict, and the method
returns at the `if not data` guard. -/
theorem set_channel_status_malformed_token (nenv : NetEnv) {c : JustinClient}
    (hne : ¬ c.access_token_str = "")
    (hbad : OAuthToken_from_string c.access_token_str = .error .keyError)
    (status description : String) :
    set_channel_status nenv c status description = .ok () := by
  unfold set_channel_status
  have hget : get_data nenv c "account/whoami.json" = .ok [] := by
    unfold get_data
    simp [pyTryKeyError, hbad, Except.bind, bind]
  simp [if_neg hne, hget, Except.bind, bind, pure, Except.pure, List.isEmpty]

/-! ## Claims -/

/-- C1 (counterexample): with the streaming destination set to justin.tv,
the metadata push enabled, and a client holding a well-formed (e.g. expired)
access token, the failure arising inside the status push — the AttributeError
on the client's undefined `config` attribute, reached as soon as the token
parses — is NOT caught: `get_output_bin` raises it to the caller and the wired
processing graph is not returned. -/
theorem C1_counterexample :
    get_output_bin genvT nenvT stJE true true (some mTAC) = .error .attributeError := rfl

/-- C1 (amended): only a key-lookup failure inside the client's request
helpers is caught and logged.  In particular, with a non-empty access token
that fails the OAuth parse (a malformed token), `set_channel_status` returns
without raising and `get_output_bin` still returns the fully wired graph,
recording the single push of the derived status and description strings. -/
theorem C1_push_failures_narrowly_caught
    (genv : GstEnv) (nenv : NetEnv) (st : RTMPState) (c : JustinClient)
    (audio video : Bool) (metadata : Option (List (String × String))) (s d : String)
    (hdest : st.config.streaming_destination = "justin.tv")
    (hapi : st.config.use_justin_api = "yes")
    (hj : st.justin_api = some c)
    (hne : ¬ c.access_token_str = "")
    (hbad : OAuthToken_from_string c.access_token_str = .error .keyError)
    (hs : get_talk_status metadata = .ok s)
    (hd : get_description metadata = .ok d) :
    get_output_bin genv nenv st audio video metadata =
      .ok { bin := built_bin genv (after_set_metadata genv st metadata).config
                     (after_set_metadata genv st metadata).tags audio video metadata.isSome
            state := after_set_metadata genv st metadata
            push_calls := [(s, d)] } := by
  have hscs := set_channel_status_malformed_token nenv hne hbad s d
  have hcond : (after_set_metadata genv st metadata).config.streaming_destination =
      STREAMING_DESTINATION_VALUES.getD 1 "" ∧
      (after_set_metadata genv st metadata).config.use_justin_api = "yes" := by
    rw [after_set_metadata_config]
    exact ⟨hdest, hapi⟩
  have hpush : justin_push nenv (after_set_metadata genv st metadata) metadata =
      .ok [(s, d)] := by
    unfold justin_push
    rw [if_pos hcond, after_set_metadata_justin, hj]
    simp [hs, hd, hscs, Except.bind, bind, pure, Except.pure]
  simp only [get_output_bin]
  rw [hpush]
  rfl

/-- C1 (witness for the amended claim at a concrete input). -/
theorem C1_witness :
    get_output_bin genvT nenvT stJ true true (some mTAC) =
      .ok { bin := built_bin genvT (after_set_metadata genvT stJ (some mTAC)).config
                     (after_set_metadata genvT stJ (some mTAC)).tags true true
                     (some mTAC).isSome
            state := after_set_metadata genvT stJ (some mTAC)
            push_calls := [("A - T", "C")] } :=
  C1_push_failures_narrowly_caught genvT nenvT stJ badTokClient true true (some mTAC)
    "A - T" "C" rfl rfl rfl (by decide) rfl rfl rfl

/-- C2: for metadata {title: T, artist: A, comment: C} the derived status is
exactly "A - T" (artist, then " - ", then title) and the description is
exactly "C", with no exception. -/
theorem C2_status_and_description :
    get_talk_status (some mTAC) = .ok "A - T" ∧
    get_description (some mTAC) = .ok "C" :=
  ⟨rfl, rfl⟩

/-- C3 (counterexample): with metadata None but the destination set to
justin.tv and the push enabled, `get_output_bin` DOES invoke
`set_channel_status` — with empty status and description strings. -/
theorem C3_counterexample :
    (get_output_bin genvT nenvT stJ true true none).map (fun r => r.push_calls) =
      .ok [("", "")] := rfl

/-- C3 (amended): the status push is guarded only by the two configuration
flags, not by `metadata`: whenever the destination is justin.tv and the push
is enabled, calling `get_output_bin` with metadata None still invokes
`set_channel_status`, with empty status and description strings. -/
theorem C3_push_attempted_without_metadata
    (genv : GstEnv) (nenv : NetEnv) (st : RTMPState) (c : JustinClient)
    (audio video : Bool)
    (hdest : st.config.streaming_destination = "justin.tv")
    (hapi : st.config.use_justin_api = "yes")
    (hj : st.justin_api = some c)
    (hok : set_channel_status nenv c "" "" = .ok ()) :
    get_output_bin genv nenv st audio video none =
      .ok { bin := built_bin genv st.config st.tags audio video false
            state := st
            push_calls := [("", "")] } := by
  have hpush : justin_push nenv st none = .ok [("", "")] := by
    unfold justin_push
    rw [if_pos ⟨hdest, hapi⟩, hj]
    simp [get_talk_status, get_description, hok, Except.bind, bind, pure, Except.pure]
  simp only [get_output_bin]
  rw [show after_set_metadata genv st none = st from rfl, hpush]
  rfl

/-- C3 (witness for the amended claim at a concrete input). -/
theorem C3_witness :
    get_output_bin genvT nenvT stJ true true none =
      .ok { bin := built_bin genvT stJ.config stJ.tags true true false
            state := stJ
            push_calls := [("", "")] } :=
  C3_push_attempted_without_metadata genvT nenvT stJ badTokClient true true rfl rfl rfl rfl

/-- C4 (counterexample): on the non-empty metadata mapping
{title: T, comment: C}, which lacks the `artist` field, `get_talk_status`
raises KeyError instead of returning an empty string. -/
theorem C4_counterexample :
    get_talk_status (some [("title", "T"), ("comment", "C")]) = .error .keyError := rfl

/-- C4 (amended): for metadata None both accessors return the empty string;
but a non-empty mapping that lacks a required field makes the corresponding
accessor raise KeyError rather than yield an empty string. -/
theorem C4_missing_fields_raise :
    (get_talk_status none = .ok "" ∧ get_description none = .ok "") ∧
    (∀ m : List (String × String), m.isEmpty = false →
      ((m.find? (fun kv => kv.1 == "artist") = none ∨
        m.find? (fun kv => kv.1 == "title") = none) →
        get_talk_status (some m) = .error .keyError) ∧
      (m.find? (fun kv => kv.1 == "comment") = none →
        get_description (some m) = .error .keyError)) := by
  refine ⟨⟨rfl, rfl⟩, fun m hm => ⟨fun hmiss => ?_, fun hmiss => ?_⟩⟩
  · simp only [get_talk_status, hm, Bool.false_eq_true, if_false, STATUS_KEYS]
    rcases hmiss with ha | ht
    · simp [List.mapM, List.mapM.loop, dict_getitem, ha, Except.bind, bind]
    · cases hfa : m.find? (fun kv => kv.1 == "artist") with
      | none => simp [List.mapM, List.mapM.loop, dict_getitem, hfa, Except.bind, bind]
      | some kv =>
        simp [List.mapM, List.mapM.loop, dict_getitem, hfa, ht, Except.bind, bind]
  · simp only [get_description, hm, Bool.false_eq_true, if_false, DESCRIPTION_KEY]
    simp [dict_getitem, hmiss]

/-- C4 (witness for the amended claim at concrete inputs). -/
theorem C4_witness :
    get_talk_status (some [("comment", "C")]) = .error .keyError ∧
    get_description (some [("title", "T")]) = .error .keyError :=
  ⟨(C4_missing_fields_raise.2 [("comment", "C")] rfl).1 (Or.inl rfl),
   (C4_missing_fields_raise.2 [("title", "T")] rfl).2 rfl⟩

/-- C5: for every enabled/disabled combination with at least one medium
enabled, the returned bin exposes exactly one ghost input pad per enabled
media type — `audiosink` on the audio buffering queue's sink pad, `videosink`
on the video buffering queue's sink pad — and none for a disabled type. -/
theorem C5_ghost_pads (genv : GstEnv) (nenv : NetEnv) (st : RTMPState)
    (audio video : Bool) (metadata : Option (List (String × String))) (r : BuildResult)
    (hav : (audio, video) ∈ [(true, true), (true, false), (false, true)])
    (h : get_output_bin genv nenv st audio video metadata = .ok r) :
    r.bin.ghost_pads =
      (if audio then
        [{ pad_name := "audiosink", target_element := "audioqueue", target_pad := "sink" }]
       else []) ++
      (if video then
        [{ pad_name := "videosink", target_element := "videoqueue", target_pad := "sink" }]
       else []) := by
  obtain ⟨hb, -⟩ := get_output_bin_ok h
  rw [hb]
  cases audio <;> cases video
  · exact absurd hav (by decide)
  · simp [built_bin]
  · simp [built_bin]
  · simp [built_bin]

/-- C5 (witness at audio enabled, video disabled). -/
theorem C5_witness :
    (get_output_bin genvT nenvT stCustom true false none).map (fun r => r.bin.ghost_pads) =
      .ok [{ pad_name := "audiosink", target_element := "audioqueue",
             target_pad := "sink" }] := by
  obtain ⟨r, hr⟩ : ∃ r, get_output_bin genvT nenvT stCustom true false none = .ok r :=
    ⟨_, rfl⟩
  have hg := C5_ghost_pads genvT nenvT stCustom true false none r (by decide) hr
  rw [hr]
  simp only [Except.map]
  rw [hg]
  rfl

/-- C6: the platform client can never be constructed: `__init__` reads the
never-defined `config` attribute and raises AttributeError on every argument
list, so `from_string` (after any successful unpickling) and `open_request`
(as soon as the request-token response parses) fail the same way. -/
theorem C6_construction_always_fails :
    (∀ ck cs rt acc : String, JustinApi_init ck cs rt acc = .error .attributeError) ∧
    (∀ (nenv : NetEnv) (s : String) (t : String × String × String × String),
      nenv.pickle_loads s = .ok t →
      JustinApi_from_string nenv s = .error .attributeError) ∧
    (∀ (nenv : NetEnv) (ck cs : String) (tok : String × String),
      OAuthToken_from_string (nenv.http_get oauth_request_token_url) = .ok tok →
      JustinApi_open_request nenv ck cs = .error .attributeError) := by
  refine ⟨fun _ _ _ _ => rfl, fun nenv s t h => ?_, fun nenv ck cs tok h => ?_⟩
  · obtain ⟨a, b, c, d⟩ := t
    unfold JustinApi_from_string
    rw [h]
    rfl
  · simp only [JustinApi_open_request]
    rw [h]
    rfl

/-- C6 (witness at concrete credentials and a parseable token response). -/
theorem C6_witness :
    JustinApi_init "k" "s" "r" "" = .error .attributeError ∧
    JustinApi_from_string nenvGood "blob" = .error .attributeError ∧
    JustinApi_open_request nenvGood "k" "s" = .error .attributeError :=
  ⟨C6_construction_always_fails.1 "k" "s" "r" "",
   C6_construction_always_fails.2.1 nenvGood "blob" ("k", "s", "r", "") rfl,
   C6_construction_always_fails.2.2 nenvGood "k" "s" ("a", "b") rfl⟩

/-- C7 (code bug, evaluated at the failing input): after the save callback
runs with the serialized state "BLOB", the configuration record's
`justin_api_persistent` field is still empty — the blob landed on a transient
instance attribute instead — so a subsequent `load_config` finds an empty blob
and reconstructs no client. -/
theorem C7_save_callback_misses_config :
    (set_justin_api_persistent stCustom "BLOB").config.justin_api_persistent = "" ∧
    (set_justin_api_persistent stCustom "BLOB").justin_api_persistent_attr = some "BLOB" ∧
    load_config nenvT (set_justin_api_persistent stCustom "BLOB") =
      .ok (set_justin_api_persistent stCustom "BLOB") ∧
    (set_justin_api_persistent stCustom "BLOB").justin_api = none :=
  ⟨rfl, rfl, rfl, rfl⟩

/-- C8: in the video chain, the encoder always gets `bitrate` from the
configured video bitrate, gets no `tune` property when the configured preset
is the sentinel "none", and gets `tune` set to exactly the configured string
otherwise. -/
theorem C8_video_tune_bitrate (genv : GstEnv) (nenv : NetEnv) (st : RTMPState)
    (audio : Bool) (metadata : Option (List (String × String))) (r : BuildResult)
    (h : get_output_bin genv nenv st audio true metadata = .ok r) :
    r.bin.elements.find? (fun e => e.name == "videocodec") =
      some { factory := "x264enc", name := "videocodec",
             props := ("bitrate", PropVal.int st.config.video_bitrate) ::
               (if st.config.video_tune ≠ "none"
                then [("tune", PropVal.str st.config.video_tune)] else []) } := by
  obtain ⟨hb, -⟩ := get_output_bin_ok h
  rw [hb, after_set_metadata_config]
  cases audio <;> rfl

/-- C8 (witness at the "film" preset). -/
theorem C8_witness :
    (get_output_bin genvT nenvT stFilm true true none).map
        (fun r => r.bin.elements.find? (fun e => e.name == "videocodec")) =
      .ok (some { factory := "x264enc", name := "videocodec",
                  props := [("bitrate", PropVal.int 2400),
                            ("tune", PropVal.str "film")] }) := by
  obtain ⟨r, hr⟩ : ∃ r, get_output_bin genvT nenvT stFilm true true none = .ok r :=
    ⟨_, rfl⟩
  have hf := C8_video_tune_bitrate genvT nenvT stFilm true none r hr
  rw [hr]
  simp only [Except.map]
  rw [hf]
  rfl

/-- C9: with audio enabled (and the status push not configured), building the
bin raises no exception whatever codec is selected; the codec element carries
the configured `quality` exactly when the selected factory exposes that
property, and the whole audio chain through to the muxer is linked either
way. -/
theorem C9_audio_codec_quality (genv : GstEnv) (nenv : NetEnv) (st : RTMPState)
    (video : Bool) (metadata : Option (List (String × String)))
    (hpush : ¬(st.config.streaming_destination = STREAMING_DESTINATION_VALUES.getD 1 "" ∧
               st.config.use_justin_api = "yes")) :
    ∃ r, get_output_bin genv nenv st true video metadata = .ok r ∧
      r.bin.elements.find? (fun e => e.name == "audiocodec") =
        some { factory := st.config.audio_codec, name := "audiocodec",
               props := if "quality" ∈ genv.property_names st.config.audio_codec
                        then [("quality", PropVal.int st.config.audio_quality)]
                        else [] } ∧
      (∀ l ∈ [("audioqueue", "audioconvert"), ("audioconvert", "audiolevel"),
              ("audiolevel", "audiocodec"), ("audiocodec", "muxer")],
        l ∈ r.bin.links) := by
  have hpush2 : justin_push nenv (after_set_metadata genv st metadata) metadata =
      .ok [] := by
    unfold justin_push
    rw [after_set_metadata_config, if_neg hpush]
  refine ⟨{ bin := built_bin genv (after_set_metadata genv st metadata).config
              (after_set_metadata genv st metadata).tags true video metadata.isSome
            state := after_set_metadata genv st metadata
            push_calls := [] }, ?_, ?_, ?_⟩
  · simp only [get_output_bin]
    rw [hpush2]
    rfl
  · rw [after_set_metadata_config]
    cases video <;> rfl
  · intro l hl
    cases video <;> fin_cases hl <;> simp [built_bin]

/-- C9 (witness at the codec without a quality property). -/
theorem C9_witness :
    (get_output_bin genvT nenvT stFaac true true none).map
        (fun r => r.bin.elements.find? (fun e => e.name == "audiocodec")) =
      .ok (some { factory := "faac", name := "audiocodec", props := [] }) ∧
    (get_output_bin genvT nenvT stFaac true true none).map
        (fun r => decide (("audiocodec", "muxer") ∈ r.bin.links)) = .ok true := by
  obtain ⟨r, hr, hfind, hlinks⟩ :=
    C9_audio_codec_quality genvT nenvT stFaac true none (by decide)
  have hmem := hlinks ("audiocodec", "muxer") (by simp)
  constructor
  · rw [hr]
    simp only [Except.map]
    rw [hfind]
    rfl
  · rw [hr]
    simp only [Except.map]
    simp [hmem]

/-- C10: the tag set built by `set_metadata` contains exactly the entries of
the metadata mapping whose key the framework's tag vocabulary recognizes,
each with its original value; unrecognized keys are dropped, and the function
is total (no error is raised). -/
theorem C10_tag_filtering (genv : GstEnv) (data : List (String × String))
    (k v : String) :
    (k, v) ∈ set_metadata genv data ↔ (k, v) ∈ data ∧ genv.tag_exists k = true := by
  rw [set_metadata_eq_filter]
  simp [List.mem_filter]

end RTMPStreaming
